import Mathlib

/-!
Verification of the collision / spatial-partitioning / game-loop core of the
space-invaders-js repository, as a shallow embedding in Lean 4.

Numbers from the JavaScript runtime are modelled as rationals (ℚ): every value
occurring in the claims is exactly representable, and the only arithmetic used
by the embedded code is +, -, min, /2 and comparisons, all exact on ℚ.
Number.isFinite is identically true on this model (ℚ has no NaN or Infinity).

Sources embedded:
- src/engine/collision/CollisionSystem.ts (CollisionSystem and Quadtree)
- src/engine/GameLoop.ts                  (the engine GameLoop)
- src/systems/GameLoop.ts                 (the systems GameLoop)
-/

/-- An axis-aligned rectangle {x, y, width, height}; used both for the
BoundingBox / QuadtreeObject interfaces and for Quadtree boundaries. -/
structure Box where
  x : ℚ
  y : ℚ
  width : ℚ
  height : ℚ
deriving DecidableEq

/-- Result record of CollisionSystem.checkCollision: hasCollision plus the
optional per-axis overlap amounts. -/
structure CollisionResult where
  hasCollision : Bool
  overlap : Option (ℚ × ℚ)
deriving DecidableEq

/-- CollisionSystem.validateBoundingBox (CollisionSystem.ts lines 135-144):
throws only when width or height is negative.  The typeof checks are
vacuous in the typed model. -/
def validateBoundingBox (box : Box) : Except String Unit :=
  if box.width < 0 ∨ box.height < 0 then
    .error "Bounding box dimensions cannot be negative"
  else
    .ok ()

/-- CollisionSystem.detectAABBCollision (CollisionSystem.ts lines 152-174):
per-axis overlap amounts via min, collision iff both are strictly positive. -/
def detectAABBCollision (boxA boxB : Box) : CollisionResult :=
  let xOverlap := min (boxA.x + boxA.width - boxB.x) (boxB.x + boxB.width - boxA.x)
  let yOverlap := min (boxA.y + boxA.height - boxB.y) (boxB.y + boxB.height - boxA.y)
  if 0 < xOverlap ∧ 0 < yOverlap then
    { hasCollision := true, overlap := some (xOverlap, yOverlap) }
  else
    { hasCollision := false, overlap := none }

/-- CollisionSystem.checkCollision (CollisionSystem.ts lines 55-74):
validates both boxes, then runs the AABB test. -/
def checkCollision (boxA boxB : Box) : Except String CollisionResult := do
  validateBoundingBox boxA
  validateBoundingBox boxB
  let collision := detectAABBCollision boxA boxB
  if collision.hasCollision then
    pure { hasCollision := true, overlap := collision.overlap }
  else
    pure { hasCollision := false, overlap := none }

/-- Quadtree static checkCollision (CollisionSystem.ts lines 399-406):
non-strict AABB test. -/
def quadCheckCollision (objA objB : Box) : Bool :=
  !(decide (objA.x + objA.width < objB.x) ||
    decide (objB.x + objB.width < objA.x) ||
    decide (objA.y + objA.height < objB.y) ||
    decide (objA.y > objB.y + objB.height))

/-- QUADTREE_CONFIG.MAX_OBJECTS. -/
def MAX_OBJECTS : Nat := 10

/-- QUADTREE_CONFIG.MAX_LEVELS. -/
def MAX_LEVELS : Nat := 5

/-- QUADTREE_CONFIG.MIN_SIZE. -/
def MIN_SIZE : ℚ := 16

/-- A Quadtree node.  The TS field nodes is an array that is always either
empty (constructor, clear, declined split) or holds exactly four subtrees
(split assigns indices 0..3); the two constructors mirror those two shapes.
Child order matches the TS indices: n0 = top-right, n1 = top-left,
n2 = bottom-left, n3 = bottom-right. -/
inductive Quadtree where
  | leaf (boundary : Box) (level : Nat) (objects : List Box)
  | split (boundary : Box) (level : Nat) (objects : List Box)
      (n0 n1 n2 n3 : Quadtree)
deriving DecidableEq

/-- Quadtree.isValidBoundary (CollisionSystem.ts lines 248-255).
Number.isFinite is identically true on ℚ. -/
def isValidBoundary (boundary : Box) : Bool :=
  decide (0 < boundary.width) && decide (0 < boundary.height)

/-- The Quadtree constructor (CollisionSystem.ts lines 234-243) at level 0:
validates the boundary, then starts as an empty leaf. -/
def Quadtree.make (boundary : Box) : Except String Quadtree :=
  if isValidBoundary boundary then
    .ok (.leaf boundary 0 [])
  else
    .error "Invalid boundary provided to Quadtree"

/-- Quadtree.getIndices (CollisionSystem.ts lines 312-332): the list of child
indices (in push order 1, 2, 0, 3) whose quadrant strictly contains the
object.  All conditions are strict, exactly as in the source. -/
def getIndices (boundary object : Box) : List Nat :=
  let verticalMidpoint := boundary.x + boundary.width / 2
  let horizontalMidpoint := boundary.y + boundary.height / 2
  let topQuadrant := decide (object.y < horizontalMidpoint) &&
                     decide (object.y + object.height < horizontalMidpoint)
  let bottomQuadrant := decide (horizontalMidpoint < object.y)
  (if decide (object.x < verticalMidpoint) &&
      decide (object.x + object.width < verticalMidpoint) then
    (if topQuadrant then [1] else []) ++ (if bottomQuadrant then [2] else [])
  else []) ++
  (if decide (verticalMidpoint < object.x) then
    (if topQuadrant then [0] else []) ++ (if bottomQuadrant then [3] else [])
  else [])

/-- Quadtree.split (CollisionSystem.ts lines 275-305): the four equal
quadrants at level + 1, or none when a half-dimension falls below MIN_SIZE
(the early return that leaves this.nodes empty). -/
def subquads (boundary : Box) (level : Nat) :
    Option (Quadtree × Quadtree × Quadtree × Quadtree) :=
  let subWidth := boundary.width / 2
  let subHeight := boundary.height / 2
  let x := boundary.x
  let y := boundary.y
  if subWidth < MIN_SIZE ∨ subHeight < MIN_SIZE then
    none
  else
    some (.leaf { x := x + subWidth, y := y, width := subWidth, height := subHeight } (level + 1) [],
          .leaf { x := x, y := y, width := subWidth, height := subHeight } (level + 1) [],
          .leaf { x := x, y := y + subHeight, width := subWidth, height := subHeight } (level + 1) [],
          .leaf { x := x + subWidth, y := y + subHeight, width := subWidth, height := subHeight } (level + 1) [])

/-- Rebuilds a node from its boundary, level, retained objects and optional
children, mirroring the this.nodes array being empty or length four. -/
def rebuild (boundary : Box) (level : Nat) (objects : List Box) :
    Option (Quadtree × Quadtree × Quadtree × Quadtree) → Quadtree
  | none => .leaf boundary level objects
  | some (m0, m1, m2, m3) => .split boundary level objects m0 m1 m2 m3

mutual

/-- Quadtree.insert (CollisionSystem.ts lines 338-373).  The fuel argument
only bounds recursion depth (the TS recursion is finite for the same
reason the fuel never runs out in the concrete theorems below); every
other step is a literal transcription.  The error value mirrors the
runtime TypeError thrown when this.nodes[index] is undefined, i.e. when
split() declined to create children (MIN_SIZE) but an object still maps
to a quadrant index. -/
def Quadtree.insert : Nat → Quadtree → Box → Except String Quadtree
  | 0, _, _ => .error "out of fuel"
  | Nat.succ fuel, .split boundary level objects n0 n1 n2 n3, object => do
    let ns ← routeInsert fuel (n0, n1, n2, n3) (getIndices boundary object) object
    pure (.split boundary level objects ns.1 ns.2.1 ns.2.2.1 ns.2.2.2)
  | Nat.succ fuel, .leaf boundary level objects, object =>
    let objects1 := objects ++ [object]
    if MAX_OBJECTS < objects1.length ∧ level < MAX_LEVELS then do
      let st ← redistribute fuel boundary (subquads boundary level) objects1 []
      pure (rebuild boundary level st.2 st.1)
    else
      pure (.leaf boundary level objects1)

/-- The for-loop of the internal-node branch of insert: route the object into
this.nodes[index] for each index.  An index outside 0..3 would dereference
undefined in the source (never produced by getIndices). -/
def routeInsert : Nat → Quadtree × Quadtree × Quadtree × Quadtree → List Nat → Box →
    Except String (Quadtree × Quadtree × Quadtree × Quadtree)
  | _, ns, [], _ => pure ns
  | 0, _, _ :: _, _ => .error "out of fuel"
  | Nat.succ fuel, (n0, n1, n2, n3), i :: rest, object =>
    if i = 0 then do
      let m ← Quadtree.insert fuel n0 object
      routeInsert fuel (m, n1, n2, n3) rest object
    else if i = 1 then do
      let m ← Quadtree.insert fuel n1 object
      routeInsert fuel (n0, m, n2, n3) rest object
    else if i = 2 then do
      let m ← Quadtree.insert fuel n2 object
      routeInsert fuel (n0, n1, m, n3) rest object
    else if i = 3 then do
      let m ← Quadtree.insert fuel n3 object
      routeInsert fuel (n0, n1, n2, m) rest object
    else .error "TypeError: this.nodes[index] is undefined"

/-- The while/splice redistribution loop of insert (lines 360-371): objects
whose index list is empty remain at the node (in order); the others are
inserted into this.nodes[index] — which is undefined (TypeError) when
split() declined to create children. -/
def redistribute : Nat → Box → Option (Quadtree × Quadtree × Quadtree × Quadtree) →
    List Box → List Box →
    Except String (Option (Quadtree × Quadtree × Quadtree × Quadtree) × List Box)
  | _, _, ns, [], kept => pure (ns, kept)
  | 0, _, _, _ :: _, _ => .error "out of fuel"
  | Nat.succ fuel, boundary, ns, ob :: rest, kept =>
    if (getIndices boundary ob).isEmpty then
      redistribute fuel boundary ns rest (kept ++ [ob])
    else
      match ns with
      | none => .error "TypeError: this.nodes[index] is undefined"
      | some tup => do
        let tup2 ← routeInsert fuel tup (getIndices boundary ob) ob
        redistribute fuel boundary (some tup2) rest kept

end

/-- Sequentially inserts a list of objects (each call with the given fuel). -/
def insertMany (fuel : Nat) (t : Quadtree) (objects : List Box) : Except String Quadtree :=
  objects.foldlM (fun acc object => Quadtree.insert fuel acc object) t

/-- Quadtree.retrieve (CollisionSystem.ts lines 380-391): the node's own
objects, concatenated with the retrieval from this.nodes[index] for each
index of the query object — only when the node has children. -/
def Quadtree.retrieve : Quadtree → Box → List Box
  | .leaf _ _ objects, _ => objects
  | .split boundary _ objects n0 n1 n2 n3, object =>
    let r0 := Quadtree.retrieve n0 object
    let r1 := Quadtree.retrieve n1 object
    let r2 := Quadtree.retrieve n2 object
    let r3 := Quadtree.retrieve n3 object
    (getIndices boundary object).foldl
      (fun acc i =>
        if i = 0 then acc ++ r0
        else if i = 1 then acc ++ r1
        else if i = 2 then acc ++ r2
        else if i = 3 then acc ++ r3
        else acc)
      objects

/-- Projects the error message of an Except value, if any. -/
def errorOf {α : Type} : Except String α → Option String
  | .ok _ => none
  | .error e => some e

/-- GameLoop constant MAX_UPDATES_PER_FRAME (src/engine/GameLoop.ts line 17). -/
def MAX_UPDATES_PER_FRAME : Nat := 10

/-- The mutable timing state of the engine GameLoop (src/engine/GameLoop.ts):
running flag, lastTime and accumulator.  rafId is modelled by the
scheduledNext output of a tick; the stats fields do not affect timing. -/
structure EngineState where
  running : Bool
  lastTime : ℚ
  accumulator : ℚ
deriving DecidableEq

/-- GameLoop.start (src/engine/GameLoop.ts lines 95-103): silently returns
when already running; otherwise sets running, resets lastTime to now and
schedules a frame.  It never reports a failure and never touches the
accumulator. -/
def engineStart (s : EngineState) (now : ℚ) : EngineState :=
  if s.running then s
  else { running := true, lastTime := now, accumulator := s.accumulator }

/-- GameLoop.stop (src/engine/GameLoop.ts lines 108-115): no-op when not
running, otherwise clears the running flag (and cancels the pending
frame). -/
def engineStop (s : EngineState) : EngineState :=
  if s.running = false then s
  else { s with running := false }

/-- Outcome of the fixed-update drain loop of GameLoop.loop: either the loop
condition became false (done), or the update callback threw and the
exception escaped the while loop (failed), with the accumulator and update
count at that point. -/
inductive DrainOut where
  | done (acc : ℚ) (updates : Nat)
  | failed (acc : ℚ) (updates : Nat)
deriving DecidableEq

/-- The while loop of GameLoop.loop (src/engine/GameLoop.ts lines 138-148):
while accumulator ≥ frameTime and updates < MAX_UPDATES_PER_FRAME, invoke
update(frameTime), subtract frameTime, count the update.  The fuel starts
at MAX_UPDATES_PER_FRAME and the count at 0, so fuel = MAX - updates and
running out of fuel is exactly the guard updates < MAX failing. -/
def engineDrain (frameTime : ℚ) (update : ℚ → Except String Unit) :
    Nat → ℚ → Nat → DrainOut
  | 0, acc, updates => .done acc updates
  | Nat.succ fuel, acc, updates =>
    if frameTime ≤ acc then
      match update frameTime with
      | .error _ => .failed acc updates
      | .ok _ => engineDrain frameTime update fuel (acc - frameTime) (updates + 1)
    else .done acc updates

/-- Everything one call of GameLoop.loop produces: the successor state, the
number of fixed updates run, whether handlePanic fired, the interpolation
value passed to render (none when render was not invoked), whether a
callback exception was caught and logged, and whether a next frame was
scheduled via requestAnimationFrame. -/
structure EngineTickOut where
  state : EngineState
  updates : Nat
  panicFlag : Bool
  renderArg : Option ℚ
  errorLogged : Bool
  scheduledNext : Bool
deriving DecidableEq

/-- GameLoop.loop (src/engine/GameLoop.ts lines 121-170): returns immediately
when not running; otherwise updates lastTime, accumulates the delta,
drains fixed updates (stopping the loop if update throws), fires the
panic handler and zeroes the accumulator when the guard was hit, computes
interpolation = accumulator / frameTime, invokes render (stopping the
loop if it throws), and schedules the next frame. -/
def engineTick (frameTime : ℚ) (update render : ℚ → Except String Unit)
    (s : EngineState) (now : ℚ) : EngineTickOut :=
  if s.running = false then
    { state := s, updates := 0, panicFlag := false, renderArg := none,
      errorLogged := false, scheduledNext := false }
  else
    let delta := now - s.lastTime
    let acc0 := s.accumulator + delta
    match engineDrain frameTime update MAX_UPDATES_PER_FRAME acc0 0 with
    | .failed acc updates =>
      { state := { running := false, lastTime := now, accumulator := acc },
        updates := updates, panicFlag := false, renderArg := none,
        errorLogged := true, scheduledNext := false }
    | .done acc updates =>
      let panicFlag := decide (MAX_UPDATES_PER_FRAME ≤ updates)
      let acc2 := if MAX_UPDATES_PER_FRAME ≤ updates then 0 else acc
      let interpolation := acc2 / frameTime
      match render interpolation with
      | .error _ =>
        { state := { running := false, lastTime := now, accumulator := acc2 },
          updates := updates, panicFlag := panicFlag, renderArg := some interpolation,
          errorLogged := true, scheduledNext := false }
      | .ok _ =>
        { state := { running := true, lastTime := now, accumulator := acc2 },
          updates := updates, panicFlag := panicFlag, renderArg := some interpolation,
          errorLogged := false, scheduledNext := true }

/-- The systems GameLoop constant fixedTimeStep = 1000 / 60
(src/systems/GameLoop.ts line 9). -/
def fixedTimeStep : ℚ := 1000 / 60

/-- The systems GameLoop constant maxDeltaTime = 100
(src/systems/GameLoop.ts line 10). -/
def maxDeltaTime : ℚ := 100

/-- The mutable timing state of the systems GameLoop
(src/systems/GameLoop.ts): lastTime, accumulator, isRunning. -/
structure SysState where
  lastTime : ℚ
  accumulator : ℚ
  isRunning : Bool
deriving DecidableEq

/-- systems GameLoop.start (src/systems/GameLoop.ts lines 24-33): throws
"Game loop is already running" when running (before touching any state);
otherwise sets isRunning, lastTime = now, accumulator = 0 and ticks. -/
def sysStart (s : SysState) (now : ℚ) : Except String SysState :=
  if s.isRunning then .error "Game loop is already running"
  else .ok { lastTime := now, accumulator := 0, isRunning := true }

/-- systems GameLoop.stop (src/systems/GameLoop.ts lines 38-44): clears
isRunning and cancels a pending frame; idempotent. -/
def sysStop (s : SysState) : SysState :=
  { s with isRunning := false }

/-- Runs a list of callbacks, each inside its own try/catch that only logs
(console.error) a thrown exception; returns how many were logged. -/
def runCaught (cbs : List (ℚ → Except String Unit)) (arg : ℚ) : Nat :=
  cbs.foldl (fun n cb => match cb arg with | .error _ => n + 1 | .ok _ => n) 0

/-- The fixed-update while loop of systems GameLoop.tick
(src/systems/GameLoop.ts lines 97-106): while accumulator ≥ fixedTimeStep,
run all fixed callbacks (exceptions caught and logged per callback) and
subtract the step.  There is no steps-per-frame guard in this loop; the
fuel only serves termination of the model and any fuel of at least
accumulator / fixedTimeStep reproduces the source loop exactly. -/
def sysDrain (fixedCbs : List (ℚ → Except String Unit)) :
    Nat → ℚ → Nat → ℚ × Nat
  | 0, acc, errs => (acc, errs)
  | Nat.succ fuel, acc, errs =>
    if fixedTimeStep ≤ acc then
      sysDrain fixedCbs fuel (acc - fixedTimeStep) (errs + runCaught fixedCbs fixedTimeStep)
    else (acc, errs)

/-- Everything one call of systems GameLoop.tick produces. -/
structure SysTickOut where
  state : SysState
  alpha : Option ℚ
  errorsLogged : Nat
  scheduledNext : Bool
deriving DecidableEq

/-- systems GameLoop.tick (src/systems/GameLoop.ts lines 74-122): returns
when not running; otherwise clamps the delta to maxDeltaTime, accumulates,
runs the variable-step update callbacks, drains fixed updates, computes
alpha = accumulator / fixedTimeStep, runs the render callbacks, and
schedules the next frame.  Every callback exception is caught and logged
inside its forEach — none of them stops the loop. -/
def sysTick (fuel : Nat) (updateCbs fixedCbs renderCbs : List (ℚ → Except String Unit))
    (s : SysState) (now : ℚ) : SysTickOut :=
  if s.isRunning = false then
    { state := s, alpha := none, errorsLogged := 0, scheduledNext := false }
  else
    let delta := min (now - s.lastTime) maxDeltaTime
    let acc0 := s.accumulator + delta
    let e1 := runCaught updateCbs delta
    let dr := sysDrain fixedCbs fuel acc0 0
    let a := dr.1 / fixedTimeStep
    let e3 := runCaught renderCbs a
    { state := { lastTime := now, accumulator := dr.1, isRunning := true },
      alpha := some a, errorsLogged := e1 + dr.2 + e3, scheduledNext := true }

theorem except_bind_ok {α β : Type} (a : α) (f : α → Except String β) :
    (Except.ok a >>= f) = f a := rfl

theorem except_bind_error {α β : Type} (e : String) (f : α → Except String β) :
    ((Except.error e : Except String α) >>= f) = .error e := rfl

/-- Bounds of the fixed-update drain loop when it finishes without an
exception: the update count is bounded by the fuel, the accumulator stays
nonnegative, and unless the guard was hit the accumulator ended below one
frame. -/
theorem engineDrain_done_bounds (ft : ℚ) (update : ℚ → Except String Unit) :
    ∀ (fuel : Nat) (acc : ℚ) (updates : Nat) (acc2 : ℚ) (updates2 : Nat),
      engineDrain ft update fuel acc updates = .done acc2 updates2 →
      updates2 ≤ updates + fuel ∧ (0 ≤ acc → 0 ≤ acc2) ∧
        (updates2 < updates + fuel → acc2 < ft) := by
  intro fuel
  induction fuel with
  | zero =>
    intro acc updates acc2 updates2 h
    simp only [engineDrain] at h
    cases h
    exact ⟨Nat.le_refl _, fun h0 => h0, fun hlt => absurd hlt (by omega)⟩
  | succ fuel ih =>
    intro acc updates acc2 updates2 h
    simp only [engineDrain] at h
    split at h
    · rename_i hge
      cases hu : update ft with
      | error e => rw [hu] at h; cases h
      | ok v =>
        rw [hu] at h
        obtain ⟨h1, h2, h3⟩ := ih (acc - ft) (updates + 1) acc2 updates2 h
        refine ⟨by omega, fun h0 => h2 (by linarith), fun hlt => h3 (by omega)⟩
    · rename_i hlt
      cases h
      push_neg at hlt
      exact ⟨by omega, fun h0 => h0, fun _ => hlt⟩

/-- The drain loop counts strictly fewer updates than its fuel allows when
the update callback throws. -/
theorem engineDrain_failed_bound (ft : ℚ) (update : ℚ → Except String Unit) :
    ∀ (fuel : Nat) (acc : ℚ) (updates : Nat) (acc2 : ℚ) (updates2 : Nat),
      engineDrain ft update fuel acc updates = .failed acc2 updates2 →
      updates2 < updates + fuel := by
  intro fuel
  induction fuel with
  | zero =>
    intro acc updates acc2 updates2 h
    simp only [engineDrain] at h
    cases h
  | succ fuel ih =>
    intro acc updates acc2 updates2 h
    simp only [engineDrain] at h
    split at h
    · cases hu : update ft with
      | error e => rw [hu] at h; cases h; omega
      | ok v => rw [hu] at h; have := ih (acc - ft) (updates + 1) acc2 updates2 h; omega
    · cases h

/-- Claim C10 (confirmed): the static Quadtree.checkCollision uses non-strict
comparisons, so for every pair of boxes that touch only along an edge or a
corner (their closed extents intersect on both axes, while the overlap
amount min(A.right - B.left, B.right - A.left) — or the Y analogue — is
zero) it returns true, while detectAABBCollision, the algorithm behind
CollisionSystem.checkCollision, reports no collision for the same pair. -/
theorem claim_C10_nonstrict_vs_strict (A B : Box)
    (h1 : B.x ≤ A.x + A.width) (h2 : A.x ≤ B.x + B.width)
    (h3 : B.y ≤ A.y + A.height) (h4 : A.y ≤ B.y + B.height)
    (hdeg : min (A.x + A.width - B.x) (B.x + B.width - A.x) = 0 ∨
            min (A.y + A.height - B.y) (B.y + B.height - A.y) = 0) :
    quadCheckCollision A B = true ∧
      (detectAABBCollision A B).hasCollision = false := by
  constructor
  · simp only [quadCheckCollision, Bool.not_eq_true', Bool.or_eq_false_iff,
      decide_eq_false_iff_not, not_lt, gt_iff_lt]
    exact ⟨⟨⟨h1, h2⟩, h3⟩, h4⟩
  · rcases hdeg with h | h <;> simp [detectAABBCollision, h]

/-- Witness: the touching pair from the spec example, A = {0,0,10,10} and
B = {10,0,10,10}. -/
theorem claim_C10_witness :
    quadCheckCollision ⟨0, 0, 10, 10⟩ ⟨10, 0, 10, 10⟩ = true ∧
      (detectAABBCollision ⟨0, 0, 10, 10⟩ ⟨10, 0, 10, 10⟩).hasCollision = false :=
  claim_C10_nonstrict_vs_strict ⟨0, 0, 10, 10⟩ ⟨10, 0, 10, 10⟩
    (by with_unfolding_all decide) (by with_unfolding_all decide)
    (by with_unfolding_all decide) (by with_unfolding_all decide)
    (Or.inl (by with_unfolding_all decide))

/-- Claim C5 counterexample: the engine GameLoop.start, called on a running
loop (state running = true, lastTime = 5, accumulator = 7), silently
returns the state unchanged — it reports no "already running" condition
at all (the source is a bare early return, with no throw and no error
channel), so the claim that start fails in this situation is false for
this loop. -/
theorem claim_C5_counterexample :
    engineStart ⟨true, 5, 7⟩ 99 = ⟨true, 5, 7⟩ := by
  with_unfolding_all decide

/-- Claim C5 (amended): the systems GameLoop.start throws "Game loop is
already running" when called on a running loop, before touching lastTime
or accumulator; the engine GameLoop.start on a running loop silently
returns without restarting, also leaving lastTime and accumulator
unchanged — only the systems loop reports a failure. -/
theorem claim_C5_amended :
    (∀ (s : SysState) (now : ℚ), s.isRunning = true →
      sysStart s now = .error "Game loop is already running") ∧
    (∀ (s : EngineState) (now : ℚ), s.running = true → engineStart s now = s) := by
  constructor
  · intro s now h
    simp [sysStart, h]
  · intro s now h
    simp [engineStart, h]

/-- Witness for claim C5 at concrete states: a running systems loop state
(lastTime 1, accumulator 2) and a running engine loop state
(lastTime 5, accumulator 7). -/
theorem claim_C5_witness :
    sysStart ⟨1, 2, true⟩ 9 = .error "Game loop is already running" ∧
      engineStart ⟨true, 5, 7⟩ 42 = ⟨true, 5, 7⟩ :=
  ⟨claim_C5_amended.1 ⟨1, 2, true⟩ 9 rfl, claim_C5_amended.2 ⟨true, 5, 7⟩ 42 rfl⟩

/-- Claim C4 counterexample: in the systems GameLoop (src/systems/GameLoop.ts
lines 96-118), a fixed-update callback that throws is caught and logged
inside the forEach and the loop keeps running and schedules the next
frame — it does not transition to the stopped state, contradicting the
claim for this loop.  Concrete run: state (lastTime 0, accumulator 0,
running), tick at now = 20 with a single always-throwing fixed callback:
one fixed step runs, the error is logged, and the loop is still running
with the next frame scheduled. -/
theorem claim_C4_counterexample :
    (sysTick 10 [] [fun _ => .error "boom"] [] ⟨0, 0, true⟩ 20).state.isRunning = true ∧
      (sysTick 10 [] [fun _ => .error "boom"] [] ⟨0, 0, true⟩ 20).scheduledNext = true ∧
      (sysTick 10 [] [fun _ => .error "boom"] [] ⟨0, 0, true⟩ 20).errorsLogged = 1 := by
  with_unfolding_all decide

/-- Exhaustive case analysis of one engineTick call: not running, update
threw, render threw, or a clean frame, with the exact output record in
each case. -/
theorem engineTick_cases (ft : ℚ) (update render : ℚ → Except String Unit)
    (s : EngineState) (now : ℚ) :
    (s.running = false ∧
      engineTick ft update render s now = ⟨s, 0, false, none, false, false⟩) ∨
    (∃ acc updates, s.running = true ∧
      engineDrain ft update MAX_UPDATES_PER_FRAME (s.accumulator + (now - s.lastTime)) 0 =
        .failed acc updates ∧
      engineTick ft update render s now =
        ⟨⟨false, now, acc⟩, updates, false, none, true, false⟩) ∨
    (∃ acc updates e, s.running = true ∧
      engineDrain ft update MAX_UPDATES_PER_FRAME (s.accumulator + (now - s.lastTime)) 0 =
        .done acc updates ∧
      render ((if MAX_UPDATES_PER_FRAME ≤ updates then 0 else acc) / ft) = .error e ∧
      engineTick ft update render s now =
        ⟨⟨false, now, if MAX_UPDATES_PER_FRAME ≤ updates then 0 else acc⟩, updates,
          decide (MAX_UPDATES_PER_FRAME ≤ updates),
          some ((if MAX_UPDATES_PER_FRAME ≤ updates then 0 else acc) / ft), true, false⟩) ∨
    (∃ acc updates, s.running = true ∧
      engineDrain ft update MAX_UPDATES_PER_FRAME (s.accumulator + (now - s.lastTime)) 0 =
        .done acc updates ∧
      render ((if MAX_UPDATES_PER_FRAME ≤ updates then 0 else acc) / ft) = .ok () ∧
      engineTick ft update render s now =
        ⟨⟨true, now, if MAX_UPDATES_PER_FRAME ≤ updates then 0 else acc⟩, updates,
          decide (MAX_UPDATES_PER_FRAME ≤ updates),
          some ((if MAX_UPDATES_PER_FRAME ≤ updates then 0 else acc) / ft), false, true⟩) := by
  by_cases hr : s.running = false
  · exact Or.inl ⟨hr, by simp [engineTick, hr]⟩
  · have hr2 : s.running = true := by revert hr; cases s.running <;> simp
    cases hd : engineDrain ft update MAX_UPDATES_PER_FRAME
        (s.accumulator + (now - s.lastTime)) 0 with
    | failed acc updates =>
      exact Or.inr (Or.inl ⟨acc, updates, hr2, rfl, by simp [engineTick, hr, hd]⟩)
    | done acc updates =>
      cases hrd : render ((if MAX_UPDATES_PER_FRAME ≤ updates then 0 else acc) / ft) with
      | error e =>
        exact Or.inr (Or.inr (Or.inl
          ⟨acc, updates, e, hr2, rfl, hrd, by simp [engineTick, hr, hd, hrd]⟩))
      | ok v =>
        cases v
        exact Or.inr (Or.inr (Or.inr
          ⟨acc, updates, hr2, rfl, hrd, by simp [engineTick, hr, hd, hrd]⟩))

/-- Claim C4 (amended): in the engine GameLoop, every exception raised inside
the update or render callback during a tick is caught at the loop
boundary, logged, and the loop transitions to stopped with no further
frame scheduled; a subsequent stop() is a no-op and start() may be called
again and leaves the loop running.  In the systems GameLoop, callback
exceptions are caught and logged per callback and the tick always leaves
the loop running with the next frame scheduled. -/
theorem claim_C4_amended :
    (∀ (frameTime : ℚ) (update render : ℚ → Except String Unit) (s : EngineState) (now : ℚ),
      (engineTick frameTime update render s now).errorLogged = true →
      (engineTick frameTime update render s now).state.running = false ∧
        (engineTick frameTime update render s now).scheduledNext = false ∧
        engineStop (engineTick frameTime update render s now).state =
          (engineTick frameTime update render s now).state ∧
        ∀ t2 : ℚ, (engineStart (engineTick frameTime update render s now).state t2).running = true) ∧
    (∀ (fuel : Nat) (ucbs fcbs rcbs : List (ℚ → Except String Unit)) (s : SysState) (now : ℚ),
      s.isRunning = true →
      (sysTick fuel ucbs fcbs rcbs s now).state.isRunning = true ∧
        (sysTick fuel ucbs fcbs rcbs s now).scheduledNext = true) := by
  constructor
  · intro frameTime update render s now h
    rcases engineTick_cases frameTime update render s now with
      ⟨hr, he⟩ | ⟨acc, u, hr, hd, he⟩ | ⟨acc, u, e, hr, hd, hrd, he⟩ | ⟨acc, u, hr, hd, hrd, he⟩
    · rw [he] at h; cases h
    · rw [he]
      exact ⟨rfl, rfl, by simp [engineStop], fun t2 => by simp [engineStart]⟩
    · rw [he]
      exact ⟨rfl, rfl, by simp [engineStop], fun t2 => by simp [engineStart]⟩
    · rw [he] at h; cases h
  · intro fuel ucbs fcbs rcbs s now h
    unfold sysTick
    rw [h]
    simp

/-- Witness for claim C4: a throwing update callback at a concrete engine
state stops the loop and schedules nothing, while the systems loop keeps
running. -/
theorem claim_C4_witness :
    (engineTick 10 (fun _ => .error "boom") (fun _ => .ok ()) ⟨true, 0, 0⟩ 20).state.running = false ∧
      (engineTick 10 (fun _ => .error "boom") (fun _ => .ok ()) ⟨true, 0, 0⟩ 20).scheduledNext = false ∧
      (sysTick 10 [] [] [] ⟨0, 0, true⟩ 20).state.isRunning = true :=
  ⟨(claim_C4_amended.1 10 (fun _ => .error "boom") (fun _ => .ok ()) ⟨true, 0, 0⟩ 20
      (by with_unfolding_all decide)).1,
   (claim_C4_amended.1 10 (fun _ => .error "boom") (fun _ => .ok ()) ⟨true, 0, 0⟩ 20
      (by with_unfolding_all decide)).2.1,
   (claim_C4_amended.2 10 [] [] [] ⟨0, 0, true⟩ 20 rfl).1⟩

/-- Claim C6 (confirmed): one engine frame never runs more than
MAX_UPDATES_PER_FRAME = 10 fixed updates; whenever the panic handler
fires, the guard was hit (exactly 10 updates) and the remaining
accumulated time was discarded (accumulator reset to 0); and whenever a
frame that reached the render stage ran 10 updates, the panic handler did
fire — so the catch-up work per frame is bounded for every deltaTime
sequence. -/
theorem claim_C6_guard (frameTime : ℚ) (update render : ℚ → Except String Unit)
    (s : EngineState) (now : ℚ) :
    (engineTick frameTime update render s now).updates ≤ MAX_UPDATES_PER_FRAME ∧
      ((engineTick frameTime update render s now).panicFlag = true →
        (engineTick frameTime update render s now).state.accumulator = 0 ∧
          (engineTick frameTime update render s now).updates = MAX_UPDATES_PER_FRAME) ∧
      ((engineTick frameTime update render s now).renderArg ≠ none →
        (engineTick frameTime update render s now).updates = MAX_UPDATES_PER_FRAME →
        (engineTick frameTime update render s now).panicFlag = true) := by
  rcases engineTick_cases frameTime update render s now with
    ⟨hr, he⟩ | ⟨acc, u, hr, hd, he⟩ | ⟨acc, u, e, hr, hd, hrd, he⟩ | ⟨acc, u, hr, hd, hrd, he⟩
  · simp only [he]
    exact ⟨Nat.zero_le _, by simp, by simp⟩
  · have hb := engineDrain_failed_bound frameTime update MAX_UPDATES_PER_FRAME
      (s.accumulator + (now - s.lastTime)) 0 acc u hd
    simp only [he]
    exact ⟨by omega, by simp, by simp⟩
  all_goals {
    have hb := (engineDrain_done_bounds frameTime update MAX_UPDATES_PER_FRAME
      (s.accumulator + (now - s.lastTime)) 0 acc u hd).1
    simp only [he]
    refine ⟨by omega, ?_, ?_⟩
    · intro hp
      have h10 : MAX_UPDATES_PER_FRAME ≤ u := by simpa using hp
      exact ⟨by simp [if_pos h10], by omega⟩
    · intro _ hu
      simp [hu]
  }

/-- Witness for claim C6: a frame that is 200ms of delta behind at a 10ms
step runs exactly 10 updates, fires the panic handler and resets the
accumulator to 0. -/
theorem claim_C6_witness :
    (engineTick 10 (fun _ => .ok ()) (fun _ => .ok ()) ⟨true, 0, 0⟩ 200).panicFlag = true ∧
      (engineTick 10 (fun _ => .ok ()) (fun _ => .ok ()) ⟨true, 0, 0⟩ 200).state.accumulator = 0 ∧
      (engineTick 10 (fun _ => .ok ()) (fun _ => .ok ()) ⟨true, 0, 0⟩ 200).updates =
        MAX_UPDATES_PER_FRAME :=
  ⟨by with_unfolding_all decide,
   ((claim_C6_guard 10 (fun _ => .ok ()) (fun _ => .ok ()) ⟨true, 0, 0⟩ 200).2.1
      (by with_unfolding_all decide)).1,
   ((claim_C6_guard 10 (fun _ => .ok ()) (fun _ => .ok ()) ⟨true, 0, 0⟩ 200).2.1
      (by with_unfolding_all decide)).2⟩

/-- Claim C7 (confirmed): whenever an engine frame reaches the render
callback, the interpolation value passed to it equals the post-drain
accumulator divided by the fixed step duration and lies in the interval
from 0 inclusive to 1 exclusive, given a positive step, a nonnegative
starting accumulator, and a non-decreasing clock. -/
theorem claim_C7_interpolation (frameTime : ℚ) (update render : ℚ → Except String Unit)
    (s : EngineState) (now : ℚ) (hft : 0 < frameTime) (hacc : 0 ≤ s.accumulator)
    (hnow : s.lastTime ≤ now) :
    ∀ i, (engineTick frameTime update render s now).renderArg = some i →
      i = (engineTick frameTime update render s now).state.accumulator / frameTime ∧
        0 ≤ i ∧ i < 1 := by
  intro i hi
  rcases engineTick_cases frameTime update render s now with
    ⟨hr, he⟩ | ⟨acc, u, hr, hd, he⟩ | ⟨acc, u, e, hr, hd, hrd, he⟩ | ⟨acc, u, hr, hd, hrd, he⟩
  · rw [he] at hi; cases hi
  · rw [he] at hi; cases hi
  all_goals {
    have hb := engineDrain_done_bounds frameTime update MAX_UPDATES_PER_FRAME
      (s.accumulator + (now - s.lastTime)) 0 acc u hd
    have hacc0 : 0 ≤ s.accumulator + (now - s.lastTime) :=
      add_nonneg hacc (sub_nonneg.mpr hnow)
    rw [he] at hi
    have hi2 : i = (if MAX_UPDATES_PER_FRAME ≤ u then (0:ℚ) else acc) / frameTime := by
      simpa using hi.symm
    simp only [he, hi2]
    by_cases h10 : MAX_UPDATES_PER_FRAME ≤ u
    · rw [if_pos h10]
      simp [hft]
    · rw [if_neg h10]
      have hlt : acc < frameTime := hb.2.2 (by omega)
      have hnn : 0 ≤ acc := hb.2.1 hacc0
      exact ⟨trivial, div_nonneg hnn (le_of_lt hft), (div_lt_one hft).mpr hlt⟩
  }

/-- Witness for claim C7: a frame with 25 ms of backlog at a 10 ms step runs
two updates and renders at interpolation 5 / 10 = 1/2. -/
theorem claim_C7_witness :
    (engineTick 10 (fun _ => .ok ()) (fun _ => .ok ()) ⟨true, 0, 0⟩ 25).renderArg =
        some (1 / 2) ∧
      (0:ℚ) ≤ 1 / 2 ∧ (1 / 2 : ℚ) < 1 :=
  ⟨by with_unfolding_all decide,
   (claim_C7_interpolation 10 (fun _ => .ok ()) (fun _ => .ok ()) ⟨true, 0, 0⟩ 25
      (by with_unfolding_all decide) (by with_unfolding_all decide)
      (by with_unfolding_all decide) (1 / 2) (by with_unfolding_all decide)).2⟩

/-- Claim C9 (code bug): when a node's half-dimensions fall below
MIN_SIZE = 16, split() silently declines to create children, but insert
still routes overflow objects through this.nodes[index], dereferencing
undefined.  Concretely, a leaf with boundary {25,25,25,25} at level 2
holding 10 objects throws on the 11th insert of {45,45,4,4}; the same
failure is reached from a fresh {0,0,100,100} root by inserting eleven
copies of {45,45,4,4} (they cascade into the 25-by-25 bottom-right
grandchild, whose split is skipped because 25 / 2 = 12.5 < 16).  The
claim that such inserts always succeed and retain the items is the
documented intent; the code crashes instead. -/
theorem claim_C9_code_bug :
    subquads ⟨25, 25, 25, 25⟩ 2 = none ∧
      errorOf (Quadtree.insert 50
          (.leaf ⟨25, 25, 25, 25⟩ 2 (List.replicate 10 ⟨45, 45, 4, 4⟩)) ⟨45, 45, 4, 4⟩) =
        some "TypeError: this.nodes[index] is undefined" ∧
      errorOf (insertMany 100 (Quadtree.leaf ⟨0, 0, 100, 100⟩ 0 [])
          (List.replicate 11 ⟨45, 45, 4, 4⟩)) =
        some "TypeError: this.nodes[index] is undefined" := by
  refine ⟨by with_unfolding_all decide, ?_, ?_⟩ <;> with_unfolding_all decide

/-- Claim C1 counterexample: insert eleven copies of B = {20,20,10,10} into a
fresh quadtree over {0,0,100,100} (all succeed; the root splits and the
copies land in the top-left child).  The query box Q = {22,22,40,40}
strictly overlaps B, yet retrieve(Q) returns the empty list, because Q
straddles the root midlines, getIndices(Q) is empty, and retrieve then
never descends into any child — so retrieve is not a superset of the true
overlaps. -/
theorem claim_C1_counterexample :
    (insertMany 100 (Quadtree.leaf ⟨0, 0, 100, 100⟩ 0 [])
        (List.replicate 11 ⟨20, 20, 10, 10⟩)).toOption.map
      (fun t => t.retrieve ⟨22, 22, 40, 40⟩) = some [] ∧
      (detectAABBCollision ⟨20, 20, 10, 10⟩ ⟨22, 22, 40, 40⟩).hasCollision = true := by
  constructor <;> with_unfolding_all decide

/-- As long as a leaf stays at or below MAX_OBJECTS items, insert only
appends to its object list. -/
theorem insertMany_leaf_small (b : Box) (level : Nat) :
    ∀ (objects pre : List Box) (fuel : Nat),
      pre.length + objects.length ≤ MAX_OBJECTS →
      insertMany (fuel + 1) (.leaf b level pre) objects =
        .ok (.leaf b level (pre ++ objects)) := by
  intro objects
  induction objects with
  | nil =>
    intro pre fuel h
    simp [insertMany, pure, Except.pure]
  | cons o rest ih =>
    intro pre fuel h
    have hstep : Quadtree.insert (fuel + 1) (.leaf b level pre) o =
        .ok (.leaf b level (pre ++ [o])) := by
      have hc : ¬(MAX_OBJECTS < pre.length + 1 ∧ level < MAX_LEVELS) := by
        simp only [List.length_cons] at h
        intro hcc
        have h1 := hcc.1
        omega
      simp [Quadtree.insert, hc, pure, Except.pure]
    have ih2 := ih (pre ++ [o]) fuel (by simp at h ⊢; omega)
    simp only [insertMany, List.foldlM_cons, hstep, except_bind_ok] at ih2 ⊢
    rw [ih2]
    simp

/-- Claim C1 (amended): while at most MAX_OBJECTS items have been inserted
into a fresh quadtree the root never splits, every insert succeeds, and
retrieve returns the full object list for every query box — in particular
a superset of the true overlaps.  (Once the root splits, a query that
straddles a midline can miss overlapping items, per the
counterexample.) -/
theorem claim_C1_amended (b query : Box) (objects : List Box) (fuel : Nat)
    (hlen : objects.length ≤ MAX_OBJECTS) :
    insertMany (fuel + 1) (.leaf b 0 []) objects = .ok (.leaf b 0 objects) ∧
      ∀ o ∈ objects, o ∈ Quadtree.retrieve (.leaf b 0 objects) query := by
  constructor
  · simpa using insertMany_leaf_small b 0 objects [] fuel (by simpa using hlen)
  · intro o ho
    simpa [Quadtree.retrieve] using ho

/-- Witness for claim C1 at one item and an arbitrary disjoint query. -/
theorem claim_C1_witness :
    insertMany 1 (.leaf ⟨0, 0, 100, 100⟩ 0 []) [⟨1, 1, 2, 2⟩] =
        .ok (.leaf ⟨0, 0, 100, 100⟩ 0 [⟨1, 1, 2, 2⟩]) ∧
      (⟨1, 1, 2, 2⟩ : Box) ∈
        Quadtree.retrieve (.leaf ⟨0, 0, 100, 100⟩ 0 [⟨1, 1, 2, 2⟩]) ⟨50, 50, 1, 1⟩ :=
  ⟨(claim_C1_amended ⟨0, 0, 100, 100⟩ ⟨50, 50, 1, 1⟩ [⟨1, 1, 2, 2⟩] 0 (by decide)).1,
   (claim_C1_amended ⟨0, 0, 100, 100⟩ ⟨50, 50, 1, 1⟩ [⟨1, 1, 2, 2⟩] 0 (by decide)).2
     ⟨1, 1, 2, 2⟩ (by simp)⟩

/-- The closed form of detectAABBCollision. -/
theorem detectAABB_shape (A B : Box) :
    detectAABBCollision A B =
      (if 0 < min (A.x + A.width - B.x) (B.x + B.width - A.x) ∧
          0 < min (A.y + A.height - B.y) (B.y + B.height - A.y) then
        ⟨true, some (min (A.x + A.width - B.x) (B.x + B.width - A.x),
                     min (A.y + A.height - B.y) (B.y + B.height - A.y))⟩
      else ⟨false, none⟩) := rfl

/-- Claim C3 counterexample: the box A = {5,2,0,6} has zero width, yet
checkCollision(A, {0,0,10,10}) validates it (only negative dimensions are
rejected) and reports hasCollision = true with overlap {5,8}, because a
degenerate box strictly inside the other box still satisfies all four
strict inequalities — so the claim that zero-dimension boxes never
collide is false. -/
theorem claim_C3_counterexample :
    (checkCollision ⟨5, 2, 0, 6⟩ ⟨0, 0, 10, 10⟩).toOption =
      some ⟨true, some (5, 8)⟩ := by
  with_unfolding_all decide

/-- Claim C3 (amended): for validated boxes (nonnegative dimensions),
checkCollision returns exactly the detectAABBCollision result, which
reports hasCollision = true iff the four strict inequalities hold, with
per-axis overlap amounts min(A.right - B.left, B.right - A.left) and the
Y analogue; A = {0,0,10,10} vs B = {5,5,10,10} gives true with {5,5} and
the edge-touching B = {10,0,10,10} gives false.  A box with zero width or
height can still collide (it does so exactly when the strict inequalities
hold, e.g. when it lies strictly inside the other box). -/
theorem claim_C3_amended :
    (∀ A B : Box, 0 ≤ A.width → 0 ≤ A.height → 0 ≤ B.width → 0 ≤ B.height →
      checkCollision A B = .ok (detectAABBCollision A B) ∧
        ((detectAABBCollision A B).hasCollision = true ↔
          (A.x < B.x + B.width ∧ B.x < A.x + A.width ∧
           A.y < B.y + B.height ∧ B.y < A.y + A.height)) ∧
        ((detectAABBCollision A B).hasCollision = true →
          (detectAABBCollision A B).overlap =
            some (min (A.x + A.width - B.x) (B.x + B.width - A.x),
                  min (A.y + A.height - B.y) (B.y + B.height - A.y)))) ∧
      (checkCollision ⟨0, 0, 10, 10⟩ ⟨5, 5, 10, 10⟩).toOption =
        some ⟨true, some (5, 5)⟩ ∧
      (checkCollision ⟨0, 0, 10, 10⟩ ⟨10, 0, 10, 10⟩).toOption = some ⟨false, none⟩ := by
  refine ⟨?_, by with_unfolding_all decide, by with_unfolding_all decide⟩
  intro A B haw hah hbw hbh
  have hva : validateBoundingBox A = .ok () := by
    unfold validateBoundingBox
    rw [if_neg]
    push_neg
    exact ⟨haw, hah⟩
  have hvb : validateBoundingBox B = .ok () := by
    unfold validateBoundingBox
    rw [if_neg]
    push_neg
    exact ⟨hbw, hbh⟩
  refine ⟨?_, ?_, ?_⟩
  · simp only [checkCollision, hva, hvb, except_bind_ok]
    rw [detectAABB_shape A B]
    split_ifs with h1 h2 <;> simp_all [pure, Except.pure]
  · rw [detectAABB_shape A B]
    split_ifs with h
    · simp only [lt_min_iff, sub_pos] at h
      exact iff_of_true rfl ⟨h.1.2, h.1.1, h.2.2, h.2.1⟩
    · refine iff_of_false (by simp) ?_
      intro hcon
      exact h ⟨lt_min_iff.mpr ⟨sub_pos.mpr hcon.2.1, sub_pos.mpr hcon.1⟩,
               lt_min_iff.mpr ⟨sub_pos.mpr hcon.2.2.2, sub_pos.mpr hcon.2.2.1⟩⟩
  · rw [detectAABB_shape A B]
    split_ifs with h
    · intro _; rfl
    · intro hcon
      simp at hcon

/-- Witness for claim C3 at the spec example A = {0,0,10,10},
B = {5,5,10,10}. -/
theorem claim_C3_witness :
    checkCollision ⟨0, 0, 10, 10⟩ ⟨5, 5, 10, 10⟩ =
        .ok (detectAABBCollision ⟨0, 0, 10, 10⟩ ⟨5, 5, 10, 10⟩) ∧
      (detectAABBCollision ⟨0, 0, 10, 10⟩ ⟨5, 5, 10, 10⟩).hasCollision = true :=
  ⟨(claim_C3_amended.1 ⟨0, 0, 10, 10⟩ ⟨5, 5, 10, 10⟩
      (by with_unfolding_all decide) (by with_unfolding_all decide)
      (by with_unfolding_all decide) (by with_unfolding_all decide)).1,
   (claim_C3_amended.1 ⟨0, 0, 10, 10⟩ ⟨5, 5, 10, 10⟩
      (by with_unfolding_all decide) (by with_unfolding_all decide)
      (by with_unfolding_all decide) (by with_unfolding_all decide)).2.1.mpr
     (by with_unfolding_all decide)⟩

/-- Claim C8 counterexample: a zero-width box passes
CollisionSystem.validateBoundingBox (only strictly negative dimensions
are rejected), and Quadtree.insert performs no item validation at all —
an item with negative width and height is inserted without any failure.
Both falsify the claim that every degenerate box is rejected at every
insert and query call. -/
theorem claim_C8_counterexample :
    validateBoundingBox ⟨0, 0, 0, 5⟩ = .ok () ∧
      (Quadtree.insert 5 (.leaf ⟨0, 0, 100, 100⟩ 0 []) ⟨1, 1, -5, -5⟩).toOption =
        some (.leaf ⟨0, 0, 100, 100⟩ 0 [⟨1, 1, -5, -5⟩]) := by
  constructor
  · with_unfolding_all rfl
  · with_unfolding_all decide

/-- Claim C8 (amended): the Quadtree constructor rejects a boundary exactly
when its width or height is non-positive (non-finite coordinates cannot
arise in the rational model); checkCollision rejects a box exactly when a
width or height is strictly negative, so zero-dimension boxes pass; and
Quadtree.insert applies no validation to the inserted item — any item,
degenerate or not, is appended to a non-full leaf. -/
theorem claim_C8_amended :
    (∀ boundary : Box, (Quadtree.make boundary).toOption.isSome = true ↔
      (0 < boundary.width ∧ 0 < boundary.height)) ∧
    (∀ A B : Box, (checkCollision A B).toOption.isSome = true ↔
      ((0 ≤ A.width ∧ 0 ≤ A.height) ∧ (0 ≤ B.width ∧ 0 ≤ B.height))) ∧
    (∀ (fuel : Nat) (b : Box) (level : Nat) (objs : List Box) (o : Box),
      objs.length < MAX_OBJECTS →
      Quadtree.insert (fuel + 1) (.leaf b level objs) o =
        .ok (.leaf b level (objs ++ [o]))) := by
  have hvok : ∀ C : Box, (0 ≤ C.width ∧ 0 ≤ C.height) →
      validateBoundingBox C = .ok () := by
    intro C hC
    unfold validateBoundingBox
    rw [if_neg]
    push_neg
    exact hC
  have hverr : ∀ C : Box, ¬(0 ≤ C.width ∧ 0 ≤ C.height) →
      validateBoundingBox C = .error "Bounding box dimensions cannot be negative" := by
    intro C hC
    unfold validateBoundingBox
    rw [if_pos]
    by_contra hc
    push_neg at hc
    exact hC hc
  refine ⟨?_, ?_, ?_⟩
  · intro boundary
    unfold Quadtree.make isValidBoundary
    split_ifs with h
    · simp only [Bool.and_eq_true, decide_eq_true_eq] at h
      simp [Except.toOption, h]
    · simp only [Bool.and_eq_true, decide_eq_true_eq] at h
      simp [Except.toOption, h]
  · intro A B
    by_cases ha : 0 ≤ A.width ∧ 0 ≤ A.height
    · by_cases hb : 0 ≤ B.width ∧ 0 ≤ B.height
      · simp only [checkCollision, hvok A ha, hvok B hb, except_bind_ok]
        split_ifs <;> simp [pure, Except.pure, Except.toOption, ha, hb]
      · simp only [checkCollision, hvok A ha, hverr B hb, except_bind_ok, except_bind_error]
        simp [Except.toOption, hb]
    · simp only [checkCollision, hverr A ha, except_bind_error]
      simp [Except.toOption, ha]
  · intro fuel b level objs o hlen
    have hc : ¬(MAX_OBJECTS < objs.length + 1 ∧ level < MAX_LEVELS) := by
      intro hcc
      have h1 := hcc.1
      omega
    simp [Quadtree.insert, hc, pure, Except.pure]

/-- Witness for claim C8: a zero-width boundary is rejected at construction,
a negative-width box is rejected by checkCollision, and a zero-size item
is inserted into a fresh quadtree without any validation failure. -/
theorem claim_C8_witness :
    (Quadtree.make ⟨0, 0, 0, 100⟩).toOption.isSome = false ∧
      (checkCollision ⟨0, 0, -1, 5⟩ ⟨0, 0, 10, 10⟩).toOption.isSome = false ∧
      Quadtree.insert 1 (.leaf ⟨0, 0, 100, 100⟩ 0 []) ⟨9, 9, 0, 0⟩ =
        .ok (.leaf ⟨0, 0, 100, 100⟩ 0 [⟨9, 9, 0, 0⟩]) := by
  refine ⟨?_, ?_, ?_⟩
  · rw [Bool.eq_false_iff]
    intro hc
    exact absurd ((claim_C8_amended.1 ⟨0, 0, 0, 100⟩).mp hc).1 (by with_unfolding_all decide)
  · rw [Bool.eq_false_iff]
    intro hc
    exact absurd ((claim_C8_amended.2.1 ⟨0, 0, -1, 5⟩ ⟨0, 0, 10, 10⟩).mp hc).1.1
      (by with_unfolding_all decide)
  · exact claim_C8_amended.2.2 0 ⟨0, 0, 100, 100⟩ 0 [] ⟨9, 9, 0, 0⟩ (by decide)

/-- getIndices never selects more than one child: the left/right and
top/bottom conditions are strict and mutually exclusive, so an object is
routed to at most the single quadrant that strictly contains it. -/
theorem getIndices_length_le_one (boundary object : Box) :
    (getIndices boundary object).length ≤ 1 := by
  simp only [getIndices]
  split_ifs with h1 h2 h3 h4 h5 h6 <;> simp_all <;> linarith

/-- Inserting into an internal node whose index list is empty (a straddling
object) changes nothing: the object is routed to no child and dropped. -/
theorem insert_split_dropped (fuel : Nat) (b : Box) (level : Nat) (objs : List Box)
    (n0 n1 n2 n3 : Quadtree) (o : Box) (h : getIndices b o = []) :
    Quadtree.insert (fuel + 1) (.split b level objs n0 n1 n2 n3) o =
      .ok (.split b level objs n0 n1 n2 n3) := by
  simp [Quadtree.insert, h, routeInsert, except_bind_ok, pure, Except.pure]

/-- The redistribution loop keeps, at the current node and in order, exactly
the objects whose index list is empty. -/
theorem redistribute_kept (b : Box) :
    ∀ (objs : List Box) (fuel : Nat)
      (ns ns2 : Option (Quadtree × Quadtree × Quadtree × Quadtree))
      (kept kept2 : List Box),
      redistribute fuel b ns objs kept = .ok (ns2, kept2) →
      kept2 = kept ++ objs.filter (fun ob => (getIndices b ob).isEmpty) := by
  intro objs
  induction objs with
  | nil =>
    intro fuel ns ns2 kept kept2 h
    simp [redistribute, pure, Except.pure] at h
    simp [h.2.symm]
  | cons ob rest ih =>
    intro fuel ns ns2 kept kept2 h
    cases fuel with
    | zero => simp [redistribute] at h
    | succ fuel =>
      simp only [redistribute] at h
      by_cases hidx : (getIndices b ob).isEmpty
      · rw [if_pos hidx] at h
        have hrec := ih fuel ns ns2 (kept ++ [ob]) kept2 h
        simp [hrec, List.filter_cons, hidx]
      · rw [if_neg hidx] at h
        cases ns with
        | none => simp at h
        | some tup =>
          have h2 : (do
              let tup2 ← routeInsert fuel tup (getIndices b ob) ob
              redistribute fuel b (some tup2) rest kept) = .ok (ns2, kept2) := h
          cases hro : routeInsert fuel tup (getIndices b ob) ob with
          | error e =>
            rw [hro, except_bind_error] at h2
            cases h2
          | ok tup2 =>
            rw [hro, except_bind_ok] at h2
            have hrec := ih fuel (some tup2) ns2 kept kept2 h2
            simp only [List.filter_cons]
            rw [if_neg (by simpa using hidx)]
            exact hrec

/-- When both half-dimensions stay at or above MIN_SIZE, split produces the
four equal quadrants at level + 1 in index order top-right, top-left,
bottom-left, bottom-right. -/
theorem subquads_quadrants (b : Box) (level : Nat)
    (hw : MIN_SIZE ≤ b.width / 2) (hh : MIN_SIZE ≤ b.height / 2) :
    subquads b level = some
      (.leaf ⟨b.x + b.width / 2, b.y, b.width / 2, b.height / 2⟩ (level + 1) [],
       .leaf ⟨b.x, b.y, b.width / 2, b.height / 2⟩ (level + 1) [],
       .leaf ⟨b.x, b.y + b.height / 2, b.width / 2, b.height / 2⟩ (level + 1) [],
       .leaf ⟨b.x + b.width / 2, b.y + b.height / 2, b.width / 2, b.height / 2⟩ (level + 1) []) := by
  unfold subquads
  rw [if_neg]
  push_neg
  exact ⟨hw, hh⟩

/-- Claim C2 counterexample: the object {48,48,4,4} strictly overlaps all
four quadrants of the split root {0,0,100,100} (its children are the four
50-by-50 leaves split produces), yet inserting it into that internal node
stores it in zero children and leaves the whole tree unchanged — the
object is silently lost, not routed to every overlapping child. -/
theorem claim_C2_counterexample :
    subquads ⟨0, 0, 100, 100⟩ 0 =
        some (.leaf ⟨50, 0, 50, 50⟩ 1 [], .leaf ⟨0, 0, 50, 50⟩ 1 [],
              .leaf ⟨0, 50, 50, 50⟩ 1 [], .leaf ⟨50, 50, 50, 50⟩ 1 []) ∧
      (Quadtree.insert 5
          (.split ⟨0, 0, 100, 100⟩ 0 [] (.leaf ⟨50, 0, 50, 50⟩ 1 [])
            (.leaf ⟨0, 0, 50, 50⟩ 1 []) (.leaf ⟨0, 50, 50, 50⟩ 1 [])
            (.leaf ⟨50, 50, 50, 50⟩ 1 [])) ⟨48, 48, 4, 4⟩).toOption =
        some (.split ⟨0, 0, 100, 100⟩ 0 [] (.leaf ⟨50, 0, 50, 50⟩ 1 [])
          (.leaf ⟨0, 0, 50, 50⟩ 1 []) (.leaf ⟨0, 50, 50, 50⟩ 1 [])
          (.leaf ⟨50, 50, 50, 50⟩ 1 [])) ∧
      (detectAABBCollision ⟨48, 48, 4, 4⟩ ⟨50, 0, 50, 50⟩).hasCollision = true ∧
      (detectAABBCollision ⟨48, 48, 4, 4⟩ ⟨0, 0, 50, 50⟩).hasCollision = true ∧
      (detectAABBCollision ⟨48, 48, 4, 4⟩ ⟨0, 50, 50, 50⟩).hasCollision = true ∧
      (detectAABBCollision ⟨48, 48, 4, 4⟩ ⟨50, 50, 50, 50⟩).hasCollision = true := by
  refine ⟨?_, ?_, ?_, ?_, ?_, ?_⟩ <;> with_unfolding_all decide

/-- Claim C2 (amended): getIndices selects at most one child — the quadrant
strictly containing the object — so an internal-node insert routes the
object to at most one child, and an object straddling a midline (empty
index list) is routed to no child and silently dropped, leaving the tree
unchanged.  When an overflowing leaf splits, it subdivides into four
equal quadrants at level + 1, and the redistribution keeps at the current
node exactly the objects that do not fit strictly within a single
quadrant. -/
theorem claim_C2_amended :
    (∀ boundary object : Box, (getIndices boundary object).length ≤ 1) ∧
      (∀ (fuel : Nat) (b : Box) (level : Nat) (objs : List Box)
          (n0 n1 n2 n3 : Quadtree) (o : Box),
        getIndices b o = [] →
        Quadtree.insert (fuel + 1) (.split b level objs n0 n1 n2 n3) o =
          .ok (.split b level objs n0 n1 n2 n3)) ∧
      (∀ (fuel : Nat) (b : Box)
          (ns ns2 : Option (Quadtree × Quadtree × Quadtree × Quadtree))
          (objs kept kept2 : List Box),
        redistribute fuel b ns objs kept = .ok (ns2, kept2) →
        kept2 = kept ++ objs.filter (fun ob => (getIndices b ob).isEmpty)) ∧
      (∀ (b : Box) (level : Nat), MIN_SIZE ≤ b.width / 2 → MIN_SIZE ≤ b.height / 2 →
        subquads b level = some
          (.leaf ⟨b.x + b.width / 2, b.y, b.width / 2, b.height / 2⟩ (level + 1) [],
           .leaf ⟨b.x, b.y, b.width / 2, b.height / 2⟩ (level + 1) [],
           .leaf ⟨b.x, b.y + b.height / 2, b.width / 2, b.height / 2⟩ (level + 1) [],
           .leaf ⟨b.x + b.width / 2, b.y + b.height / 2, b.width / 2, b.height / 2⟩
             (level + 1) [])) :=
  ⟨getIndices_length_le_one,
   insert_split_dropped,
   fun fuel b ns ns2 objs kept kept2 h =>
     redistribute_kept b objs fuel ns ns2 kept kept2 h,
   subquads_quadrants⟩

/-- Witness for claim C2: the straddling object {48,48,4,4} inserted into
the split root {0,0,100,100} leaves the tree unchanged, and the split of
that root produces the four 50-by-50 quadrants. -/
theorem claim_C2_witness :
    Quadtree.insert 1
        (.split ⟨0, 0, 100, 100⟩ 0 [] (.leaf ⟨50, 0, 50, 50⟩ 1 [])
          (.leaf ⟨0, 0, 50, 50⟩ 1 []) (.leaf ⟨0, 50, 50, 50⟩ 1 [])
          (.leaf ⟨50, 50, 50, 50⟩ 1 [])) ⟨48, 48, 4, 4⟩ =
        .ok (.split ⟨0, 0, 100, 100⟩ 0 [] (.leaf ⟨50, 0, 50, 50⟩ 1 [])
          (.leaf ⟨0, 0, 50, 50⟩ 1 []) (.leaf ⟨0, 50, 50, 50⟩ 1 [])
          (.leaf ⟨50, 50, 50, 50⟩ 1 [])) ∧
      subquads ⟨0, 0, 100, 100⟩ 0 =
        some (.leaf ⟨50, 0, 50, 50⟩ 1 [], .leaf ⟨0, 0, 50, 50⟩ 1 [],
              .leaf ⟨0, 50, 50, 50⟩ 1 [], .leaf ⟨50, 50, 50, 50⟩ 1 []) :=
  ⟨claim_C2_amended.2.1 0 ⟨0, 0, 100, 100⟩ 0 [] (.leaf ⟨50, 0, 50, 50⟩ 1 [])
     (.leaf ⟨0, 0, 50, 50⟩ 1 []) (.leaf ⟨0, 50, 50, 50⟩ 1 [])
     (.leaf ⟨50, 50, 50, 50⟩ 1 []) ⟨48, 48, 4, 4⟩ (by with_unfolding_all decide),
   by
     have h := claim_C2_amended.2.2.2 ⟨0, 0, 100, 100⟩ 0
       (by with_unfolding_all decide) (by with_unfolding_all decide)
     simpa [show (100:ℚ) / 2 = 50 by norm_num] using h⟩
